import Mathlib

/-!
A shallow embedding of `synapse/handlers/sso.py` (the SSO handler of the
synapse homeserver) together with proofs about its behaviour.

The handler's externally-provided collaborators (the datastore, the
registration subsystem, the mapping provider callback, the grandfathering
callback) are modelled as explicit parameters or as small executable models
taken from their specified interfaces; everything else is translated
directly from the Python source.
-/

set_option maxRecDepth 4000

/-- User attributes returned by the mapping provider
(`UserAttributes` in sso.py). `localpart = none` models Python `None`. -/
structure UserAttributes where
  localpart : Option String
  display_name : Option String := none
  emails : List String := []
deriving Repr, DecidableEq

/-- Python truthiness test `not x` for an `Optional[str]` value:
`None` and the empty string are falsy. -/
def optStrFalsy : Option String → Bool
  | none => true
  | some s => s = ""

/-- Modelled from the spec: the candidate local user id derived from a
localpart (`UserID(localpart, server_name).to_string()`; `synapse.types`
is not under src/). A Matrix user id is `@localpart:server`. -/
def userIdToString (localpart server_name : String) : String :=
  "@" ++ localpart ++ ":" ++ server_name

/-- ASCII lower-casing of a character. -/
def lowerChar (c : Char) : Char :=
  if 'A' ≤ c ∧ c ≤ 'Z' then Char.ofNat (c.toNat + 32) else c

/-- ASCII lower-casing of a string. -/
def lowerString (s : String) : String := String.mk (s.toList.map lowerChar)

/-- Modelled from the spec: `isLocalIdTaken(localUserId) -> bool`
(case-insensitive), backing `get_users_by_id_case_insensitive` of the
external datastore, which is not under src/. `accounts` is the list of
existing local user ids; two ids collide when they agree up to case. -/
def isTakenCI (accounts : List String) (user_id : String) : Bool :=
  accounts.any (fun a => lowerString a == lowerString user_id)

/-- The external persistent store, specified at its interface boundary:
existing accounts and the external-identity link table. -/
structure Store where
  accounts : List String
  links : List ((String × String) × String)
deriving Repr, DecidableEq

/-- `isLocalIdTaken` on a store. -/
def Store.isTaken (st : Store) (user_id : String) : Bool :=
  isTakenCI st.accounts user_id

/-- `get_user_by_external_id`: look up the link table
(external interface, modelled from the spec's `lookup`). -/
def Store.lookupLink (st : Store) (auth_provider_id remote_user_id : String) :
    Option String :=
  (st.links.find? (fun e => e.1 == (auth_provider_id, remote_user_id))).map (·.2)

/-- `record_user_external_id`: append a link
(external interface, modelled from the spec's `recordLink`). -/
def Store.recordLink (st : Store) (auth_provider_id remote_user_id user_id : String) :
    Store :=
  { st with links := st.links ++ [((auth_provider_id, remote_user_id), user_id)] }

/-- Outcome of the external registration subsystem. -/
inductive RegOutcome where
  | ok (user_id : String)
  | inUse
deriving Repr, DecidableEq

/-- Modelled from the spec: `createAccount(localpart, ...) -> localUserId`,
"may fail with identifier in use" (the registration handler's
`register_user` is not under src/). On success the new account's user id
is recorded in the store. -/
def Store.registerUser (st : Store) (server_name localpart : String) :
    RegOutcome × Store :=
  let user_id := userIdToString localpart server_name
  if st.isTaken user_id then (.inUse, st)
  else (.ok user_id, { st with accounts := st.accounts ++ [user_id] })

/-- What a single call of the `sso_to_matrix_id_mapper` callback does:
return attributes, raise `RedirectException`, raise `MappingException`,
or raise any other exception (with some detail string). -/
inductive MapperOutcome where
  | ok (attrs : UserAttributes)
  | redirect
  | mappingError (msg : String)
  | otherError (detail : String)
deriving Repr, DecidableEq

/-- Result of `_call_attribute_mapper`: attributes, or a propagated
`RedirectException`, or a (possibly wrapped) `MappingException`. -/
inductive MapperLoopResult where
  | attrs (a : UserAttributes)
  | redirect
  | mappingFailed (msg : String)
deriving Repr, DecidableEq

/-- The message of the `MappingException` wrapping an unexpected mapper
exception. -/
def genericMapperErrorMsg : String :=
  "Could not extract user attributes from SSO response."

/-- The message of the `MappingException` raised when the retry bound is
exhausted. -/
def exhaustedErrorMsg : String :=
  "Unable to generate a Matrix ID from the SSO response"

/-- `SsoHandler._MAP_USERNAME_RETRIES`. -/
def MAP_USERNAME_RETRIES : Nat := 1000

/-- The loop body of `_call_attribute_mapper`, starting at attempt `i` with
`fuel` iterations left; also counts how many times the mapper callback is
invoked. `taken` is `get_users_by_id_case_insensitive` viewed as a
predicate on the candidate user id. -/
def call_attribute_mapper_from (mapper : Nat → MapperOutcome)
    (taken : String → Bool) (server_name : String) :
    Nat → Nat → MapperLoopResult × Nat
  | _, 0 => (.mappingFailed exhaustedErrorMsg, 0)
  | i, fuel + 1 =>
    match mapper i with
    | .redirect => (.redirect, 1)
    | .mappingError msg => (.mappingFailed msg, 1)
    | .otherError _ => (.mappingFailed genericMapperErrorMsg, 1)
    | .ok a =>
      match a.localpart with
      | none => (.attrs a, 1)
      | some lp =>
        if lp = "" then (.attrs a, 1)
        else if taken (userIdToString lp server_name) then
          let r := call_attribute_mapper_from mapper taken server_name (i + 1) fuel
          (r.1, r.2 + 1)
        else (.attrs a, 1)

/-- `_call_attribute_mapper`: run the mapper in a loop of at most
`_MAP_USERNAME_RETRIES` attempts. -/
def call_attribute_mapper (mapper : Nat → MapperOutcome)
    (taken : String → Bool) (server_name : String) : MapperLoopResult × Nat :=
  call_attribute_mapper_from mapper taken server_name 0 MAP_USERNAME_RETRIES

/-- Attempt `j` of the mapper produces a non-empty localpart whose derived
user id is already taken: the loop continues past it. -/
def CollidesAt (mapper : Nat → MapperOutcome) (taken : String → Bool)
    (server_name : String) (j : Nat) : Prop :=
  ∃ a lp, mapper j = .ok a ∧ a.localpart = some lp ∧ lp ≠ "" ∧
    taken (userIdToString lp server_name) = true

/-- An extra-login-attributes dictionary (`JsonDict` in the source),
modelled as a finite key-value list. -/
abbrev JsonDict := List (String × String)

/-- `UsernameMappingSession` in sso.py: data tracked about a pending
username-picker session. -/
structure UsernameMappingSession where
  auth_provider_id : String
  remote_user_id : String
  display_name : Option String
  emails : List String
  extra_login_attributes : Option JsonDict
  client_redirect_url : String
  expiry_time_ms : Nat
deriving Repr, DecidableEq

/-- `SsoHandler._MAPPING_SESSION_VALIDITY_PERIOD_MS = 15 * 60 * 1000`. -/
def MAPPING_SESSION_VALIDITY_PERIOD_MS : Nat := 15 * 60 * 1000

/-- The session table `_username_mapping_sessions` (a dict keyed by the
opaque session id), modelled as an association list in insertion order. -/
abbrev SessionTable := List (String × UsernameMappingSession)

/-- The mutable state of `SsoHandler` together with the external store:
the in-memory session table plus accounts and link table. -/
structure SsoState where
  store : Store
  sessions : SessionTable
deriving Repr, DecidableEq

/-- The session record built by `_redirect_to_username_picker` at time
`now` (`UsernameMappingSession(...)` with
`expiry_time_ms = now + _MAPPING_SESSION_VALIDITY_PERIOD_MS`). -/
def mkMappingSession (auth_provider_id remote_user_id : String)
    (a : UserAttributes) (client_redirect_url : String)
    (extra_login_attributes : Option JsonDict) (now : Nat) :
    UsernameMappingSession :=
  { auth_provider_id := auth_provider_id
    remote_user_id := remote_user_id
    display_name := a.display_name
    emails := a.emails
    extra_login_attributes := extra_login_attributes
    client_redirect_url := client_redirect_url
    expiry_time_ms := now + MAPPING_SESSION_VALIDITY_PERIOD_MS }

/-- `_redirect_to_username_picker`: store a new session under the freshly
generated `session_id` (the `random_string(16)` token is a parameter) and
raise a `RedirectException` to the username picker. Returns the updated
session table. -/
def redirect_to_username_picker (auth_provider_id remote_user_id : String)
    (a : UserAttributes) (client_redirect_url : String)
    (extra_login_attributes : Option JsonDict) (session_id : String)
    (now : Nat) (sessions : SessionTable) : SessionTable :=
  sessions ++
    [(session_id,
      mkMappingSession auth_provider_id remote_user_id a client_redirect_url
        extra_login_attributes now)]

/-- External calls made by the handler, recorded as a trace. -/
inductive Event where
  | mapperCall (i : Nat)
  | grandfatherCall
  | registerCall (localpart : String)
  | recordLink (auth_provider_id remote_user_id user_id : String)
  | completeLogin (user_id : String)
deriving Repr, DecidableEq

/-- Result of `_register_mapped_user`: a raised `MappingException`,
a propagated `SynapseError` with `Codes.USER_IN_USE`, or the registered
user id. -/
inductive RegisterResult where
  | mappingFailed (msg : String)
  | userInUse
  | ok (user_id : String)
deriving Repr, DecidableEq

/-- Python `"%s"` rendering of an `Optional[str]`. -/
def optStrRepr : Option String → String
  | none => "None"
  | some s => s

/-- `_register_mapped_user`: validate the localpart
(`if not attributes.localpart or contains_invalid_mxid_characters(...)`),
call the external registration handler, then record the external-id link.
`containsInvalid` models `contains_invalid_mxid_characters` (in
`synapse.types`, not under src/). Also returns the trace of external
calls made. -/
def register_mapped_user (server_name : String)
    (containsInvalid : String → Bool) (a : UserAttributes)
    (auth_provider_id remote_user_id : String) (st : Store) :
    RegisterResult × Store × List Event :=
  if optStrFalsy a.localpart || containsInvalid (a.localpart.getD "") then
    (.mappingFailed ("localpart is invalid: " ++ optStrRepr a.localpart), st, [])
  else
    let lp := a.localpart.getD ""
    match st.registerUser server_name lp with
    | (.inUse, st') => (.userInUse, st', [.registerCall lp])
    | (.ok user_id, st') =>
      (.ok user_id, st'.recordLink auth_provider_id remote_user_id user_id,
        [.registerCall lp, .recordLink auth_provider_id remote_user_id user_id])

/-- Result of `complete_sso_login_request`: login completed for a user id,
redirect to the username picker (with the session cookie set), a
propagated `RedirectException` from the mapper, a `MappingException`, or
a `USER_IN_USE` error from registration. -/
inductive CompleteResult where
  | done (user_id : String)
  | redirectToPicker (session_id : String)
  | redirect
  | mappingFailed (msg : String)
  | userInUse
deriving Repr, DecidableEq

/-- `complete_sso_login_request`: look up an existing link, try the
grandfathering callback, otherwise run the attribute-mapper loop and
either redirect to the username picker (when the mapper returned
`localpart = None`) or register a new user; finally complete the login.
The grandfathering callback's answer and the generated picker session id
and clock reading are parameters; the trace records the external calls. -/
def complete_sso_login_request (server_name : String)
    (containsInvalid : String → Bool)
    (auth_provider_id remote_user_id : String)
    (client_redirect_url : String)
    (mapper : Nat → MapperOutcome)
    (grandfather : Option String)
    (extra_login_attributes : Option JsonDict)
    (session_id : String) (now : Nat)
    (st : SsoState) : CompleteResult × SsoState × List Event :=
  let u0 := st.store.lookupLink auth_provider_id remote_user_id
  let g :=
    if optStrFalsy u0 then
      if optStrFalsy grandfather then (grandfather, st, [Event.grandfatherCall])
      else
        (grandfather,
          { st with
            store :=
              st.store.recordLink auth_provider_id remote_user_id
                (grandfather.getD "") },
          [Event.grandfatherCall,
            Event.recordLink auth_provider_id remote_user_id (grandfather.getD "")])
    else (u0, st, [])
  let u1 := g.1
  let st1 := g.2.1
  let ev1 := g.2.2
  if optStrFalsy u1 then
    let m := call_attribute_mapper mapper st1.store.isTaken server_name
    let ev2 := ev1 ++ (List.range m.2).map Event.mapperCall
    match m.1 with
    | .redirect => (.redirect, st1, ev2)
    | .mappingFailed msg => (.mappingFailed msg, st1, ev2)
    | .attrs a =>
      if a.localpart = none then
        (.redirectToPicker session_id,
          { st1 with
            sessions :=
              redirect_to_username_picker auth_provider_id remote_user_id a
                client_redirect_url extra_login_attributes session_id now
                st1.sessions },
          ev2)
      else
        match register_mapped_user server_name containsInvalid a
            auth_provider_id remote_user_id st1.store with
        | (.mappingFailed msg, store', ev3) =>
          (.mappingFailed msg, { st1 with store := store' }, ev2 ++ ev3)
        | (.userInUse, store', ev3) =>
          (.userInUse, { st1 with store := store' }, ev2 ++ ev3)
        | (.ok user_id, store', ev3) =>
          (.done user_id, { st1 with store := store' },
            ev2 ++ ev3 ++ [Event.completeLogin user_id])
  else
    let user_id := u1.getD ""
    (.done user_id, st1, ev1 ++ [Event.completeLogin user_id])

/-- `_expire_old_sessions`: delete every session whose
`expiry_time_ms <= now`. -/
def expire_old_sessions (now : Nat) (sessions : SessionTable) : SessionTable :=
  sessions.filter (fun p => !(p.2.expiry_time_ms ≤ now))

/-- Result of `check_username_availability`: a `SynapseError` 400
"unknown session", a `SynapseError` 400 for an invalid localpart, or the
availability boolean. -/
inductive CheckResult where
  | unknownSession
  | invalidLocalpart (msg : String)
  | ok (available : Bool)
deriving Repr, DecidableEq

/-- `check_username_availability`: sweep expired sessions, look the
session up, validate the localpart and report whether the derived user id
is free. Returns the result and the updated handler state. -/
def check_username_availability (server_name : String)
    (containsInvalid : String → Bool) (localpart session_id : String)
    (now : Nat) (st : SsoState) : CheckResult × SsoState :=
  let sessions := expire_old_sessions now st.sessions
  match sessions.lookup session_id with
  | none => (.unknownSession, { store := st.store, sessions := sessions })
  | some _ =>
    if containsInvalid localpart then
      (.invalidLocalpart ("localpart is invalid: " ++ localpart),
        { store := st.store, sessions := sessions })
    else
      (.ok (!(st.store.isTaken (userIdToString localpart server_name))),
        { store := st.store, sessions := sessions })

/-- Result of `handle_submit_username_request`. -/
inductive SubmitResult where
  | unknownSession
  | mappingFailed (msg : String)
  | userInUse
  | ok (user_id : String)
deriving Repr, DecidableEq

/-- `handle_submit_username_request`: sweep expired sessions, look the
session up, register the chosen localpart via `_register_mapped_user`,
and on success delete the session, clear the correlation cookie and
complete the login. Returns the result, the updated handler state, and
whether the correlation cookie was cleared. -/
def handle_submit_username_request (server_name : String)
    (containsInvalid : String → Bool) (localpart session_id : String)
    (now : Nat) (st : SsoState) : SubmitResult × SsoState × Bool :=
  let sessions := expire_old_sessions now st.sessions
  match sessions.lookup session_id with
  | none => (.unknownSession, { store := st.store, sessions := sessions }, false)
  | some session =>
    let a : UserAttributes :=
      { localpart := some localpart
        display_name := session.display_name
        emails := session.emails }
    match register_mapped_user server_name containsInvalid a
        session.auth_provider_id session.remote_user_id st.store with
    | (.mappingFailed msg, store', _) =>
      (.mappingFailed msg, { store := store', sessions := sessions }, false)
    | (.userInUse, store', _) =>
      (.userInUse, { store := store', sessions := sessions }, false)
    | (.ok user_id, store', _) =>
      (.ok user_id,
        { store := store',
          sessions := sessions.filter (fun p => !(p.1 == session_id)) },
        true)

/-- An SSO identity provider, specified at its interface boundary:
`idp_id`, `idp_name`, and `handle_redirect_request` viewed as a function
(`beginAuth`) from the client redirect URL to the redirect URI. -/
structure SsoIdentityProvider where
  idp_id : String
  idp_name : String
  beginAuth : String → String

/-- An upper-case hexadecimal digit. -/
def hexDigitUpper (n : Nat) : Char :=
  if n < 10 then Char.ofNat (48 + n) else Char.ofNat (55 + n)

/-- A character that `urllib.parse.quote_plus` leaves unescaped:
ASCII letters, digits, and `_.-~`. -/
def urlAlwaysSafe (c : Char) : Bool :=
  (c.isAlphanum && c.toNat < 128) || c = '_' || c = '.' || c = '-' || c = '~'

/-- Modelled from the spec ("carrying `postAuthRedirectTarget` as a query
parameter"): `urllib.parse.quote_plus` on an ASCII string — safe
characters kept, space becomes `+`, anything else percent-encoded. -/
def quotePlus (s : String) : String :=
  String.join (s.toList.map (fun c =>
    if urlAlwaysSafe c then String.singleton c
    else if c = ' ' then "+"
    else
      let n := c.toNat % 256
      "%" ++ String.singleton (hexDigitUpper (n / 16)) ++
        String.singleton (hexDigitUpper (n % 16))))

/-- Modelled from the spec: `urllib.parse.urlencode` on a query list
(library code, not under src/). -/
def urlencode (q : List (String × String)) : String :=
  String.intercalate "&" (q.map (fun kv => quotePlus kv.1 ++ "=" ++ quotePlus kv.2))

/-- Result of `SsoHandler.handle_redirect_request`: a redirect URI, or a
`SynapseError` (status, message, errcode). -/
inductive RedirectRequestResult where
  | uri (u : String)
  | error (code : Nat) (msg : String) (errcode : String)
deriving Repr, DecidableEq

/-- `SsoHandler.handle_redirect_request`: dispatch on the number of
registered identity providers (given in registration order, as the dict
preserves insertion order; `next(iter(...))` takes the first). -/
def handle_redirect_request (providers : List SsoIdentityProvider)
    (client_redirect_url : String) : RedirectRequestResult :=
  match providers with
  | [] => .error 400 "Homeserver not configured for SSO." "M_UNRECOGNIZED"
  | [ap] => .uri (ap.beginAuth client_redirect_url)
  | _ =>
    .uri ("/_synapse/client/pick_idp?" ++
      urlencode [("redirectUrl", client_redirect_url)])

theorem call_attribute_mapper_from_collide_all (mapper : Nat → MapperOutcome)
    (taken : String → Bool) (server_name : String)
    (h : ∀ j, CollidesAt mapper taken server_name j) :
    ∀ (fuel i : Nat),
      call_attribute_mapper_from mapper taken server_name i fuel =
        (.mappingFailed exhaustedErrorMsg, fuel) := by
  intro fuel
  induction fuel with
  | zero => intro i; rfl
  | succ n ih =>
    intro i
    obtain ⟨a, lp, hm, hlp, hne, ht⟩ := h i
    simp [call_attribute_mapper_from, hm, hlp, hne, ht, ih (i + 1)]

theorem call_attribute_mapper_from_skip (mapper : Nat → MapperOutcome)
    (taken : String → Bool) (server_name : String) :
    ∀ (d i fuel : Nat),
      (∀ j, j < d → CollidesAt mapper taken server_name (i + j)) →
      call_attribute_mapper_from mapper taken server_name i (d + fuel) =
        ((call_attribute_mapper_from mapper taken server_name (i + d) fuel).1,
          (call_attribute_mapper_from mapper taken server_name (i + d) fuel).2 + d) := by
  intro d
  induction d with
  | zero => intro i fuel _; simp
  | succ n ih =>
    intro i fuel h
    obtain ⟨a, lp, hm, hlp, hne, ht⟩ := h 0 (Nat.zero_lt_succ n)
    rw [Nat.add_zero] at hm
    have hrest : ∀ j, j < n → CollidesAt mapper taken server_name (i + 1 + j) := by
      intro j hj
      have := h (j + 1) (by omega)
      rwa [show i + (j + 1) = i + 1 + j by omega] at this
    have hstep : n + 1 + fuel = (n + fuel) + 1 := by omega
    rw [hstep]
    simp only [call_attribute_mapper_from, hm, hlp, hne, ht, if_false, if_true]
    rw [ih (i + 1) fuel hrest]
    simp [show i + 1 + n = i + (n + 1) by omega]
    omega

theorem call_attribute_mapper_reach (mapper : Nat → MapperOutcome)
    (taken : String → Bool) (server_name : String) (i : Nat)
    (hi : i < MAP_USERNAME_RETRIES)
    (hprev : ∀ j, j < i → CollidesAt mapper taken server_name j) :
    call_attribute_mapper mapper taken server_name =
      ((call_attribute_mapper_from mapper taken server_name i
          (MAP_USERNAME_RETRIES - i)).1,
        (call_attribute_mapper_from mapper taken server_name i
          (MAP_USERNAME_RETRIES - i)).2 + i) := by
  unfold call_attribute_mapper
  have hsplit : MAP_USERNAME_RETRIES = i + (MAP_USERNAME_RETRIES - i) := by
    unfold MAP_USERNAME_RETRIES at *; omega
  rw [hsplit, call_attribute_mapper_from_skip mapper taken server_name i 0
    (MAP_USERNAME_RETRIES - i) (by intro j hj; simpa using hprev j hj)]
  simp

/-- C1: for every mapper callback whose returned localpart is always
non-empty and always collides (case-insensitively) with an existing
account, the attribute mapping loop calls the mapper exactly
`MAX_ATTEMPTS` (1000) times — the returned call count is exactly
`MAP_USERNAME_RETRIES` — and then fails with a mapping-failed condition
(`MappingException`). -/
theorem c1_loop_exhausts_exactly_max_attempts (mapper : Nat → MapperOutcome)
    (st : Store) (server_name : String)
    (h : ∀ j, CollidesAt mapper st.isTaken server_name j) :
    call_attribute_mapper mapper st.isTaken server_name =
      (.mappingFailed exhaustedErrorMsg, MAP_USERNAME_RETRIES) := by
  unfold call_attribute_mapper
  exact call_attribute_mapper_from_collide_all mapper st.isTaken server_name h
    MAP_USERNAME_RETRIES 0

/-- Witness for C1: a mapper that always returns the already-taken
localpart `alice` makes the loop fail after exactly 1000 calls. -/
theorem c1_loop_exhausts_exactly_max_attempts_witness :
    call_attribute_mapper (fun _ => .ok { localpart := some "alice" })
      (Store.isTaken { accounts := ["@alice:test"], links := [] }) "test" =
      (.mappingFailed exhaustedErrorMsg, MAP_USERNAME_RETRIES) :=
  c1_loop_exhausts_exactly_max_attempts _ _ _
    (fun _ => ⟨{ localpart := some "alice" }, "alice", rfl, rfl, by decide, by decide⟩)

/-- C2: the attribute mapping loop stops at the first attempt `i` whose
returned attributes have an empty or absent localpart and returns those
attributes unchanged; otherwise it stops at the first attempt whose
localpart-derived local user id is not taken under the (case-insensitive)
store check and returns those attributes; every earlier attempt whose
derived id is taken makes it continue with attempt `i + 1` (so exactly
`i + 1` mapper calls are made). -/
theorem c2_loop_stops_at_first_success (mapper : Nat → MapperOutcome)
    (taken : String → Bool) (server_name : String) (i : Nat)
    (a : UserAttributes)
    (hi : i < MAP_USERNAME_RETRIES)
    (hprev : ∀ j, j < i → CollidesAt mapper taken server_name j)
    (hcur : mapper i = .ok a)
    (hstop : a.localpart = none ∨ a.localpart = some "" ∨
      ∃ lp, a.localpart = some lp ∧
        taken (userIdToString lp server_name) = false) :
    call_attribute_mapper mapper taken server_name = (.attrs a, i + 1) := by
  rw [call_attribute_mapper_reach mapper taken server_name i hi hprev]
  have hfuel : MAP_USERNAME_RETRIES - i = (MAP_USERNAME_RETRIES - i - 1) + 1 := by
    unfold MAP_USERNAME_RETRIES at *; omega
  rw [hfuel]
  rcases hstop with hnone | hempty | ⟨lp, hlp, hfree⟩
  · simp [call_attribute_mapper_from, hcur, hnone, Nat.add_comm]
  · simp [call_attribute_mapper_from, hcur, hempty, Nat.add_comm]
  · by_cases hne : lp = ""
    · simp [call_attribute_mapper_from, hcur, hlp, hne, Nat.add_comm]
    · simp [call_attribute_mapper_from, hcur, hlp, hne, hfree, Nat.add_comm]

/-- Witness for C2: `alice` collides on attempt 0, `alice1` is free on
attempt 1, so the loop returns the attempt-1 attributes after exactly two
calls. -/
theorem c2_loop_stops_at_first_success_witness :
    call_attribute_mapper
      (fun i => .ok { localpart := some ("alice" ++ toString i) })
      (Store.isTaken { accounts := ["@alice0:test"], links := [] }) "test" =
      (.attrs { localpart := some "alice1" }, 2) :=
  c2_loop_stops_at_first_success _ _ _ 1 _ (by decide)
    (fun j hj => by
      interval_cases j
      exact ⟨{ localpart := some "alice0" }, "alice0", rfl, rfl, by decide, by decide⟩)
    rfl
    (Or.inr (Or.inr ⟨"alice1", rfl, by decide⟩))

/-- C5: when the mapper callback raises at a reachable attempt `i`, the
mapping loop re-raises a redirect condition (`RedirectException`) or a
mapping-failed condition (`MappingException`) unchanged — same message —
and wraps every other exception into a generic mapping-failed condition
whose message is the fixed string `genericMapperErrorMsg`, independent of
the original exception's detail. -/
theorem c5_loop_exception_handling (mapper : Nat → MapperOutcome)
    (taken : String → Bool) (server_name : String) (i : Nat)
    (hi : i < MAP_USERNAME_RETRIES)
    (hprev : ∀ j, j < i → CollidesAt mapper taken server_name j) :
    (mapper i = .redirect →
      call_attribute_mapper mapper taken server_name = (.redirect, i + 1)) ∧
    (∀ msg, mapper i = .mappingError msg →
      call_attribute_mapper mapper taken server_name =
        (.mappingFailed msg, i + 1)) ∧
    (∀ detail, mapper i = .otherError detail →
      call_attribute_mapper mapper taken server_name =
        (.mappingFailed genericMapperErrorMsg, i + 1)) := by
  have hfuel : MAP_USERNAME_RETRIES - i = (MAP_USERNAME_RETRIES - i - 1) + 1 := by
    unfold MAP_USERNAME_RETRIES at *; omega
  refine ⟨fun hm => ?_, fun msg hm => ?_, fun detail hm => ?_⟩ <;>
    rw [call_attribute_mapper_reach mapper taken server_name i hi hprev, hfuel] <;>
    simp [call_attribute_mapper_from, hm, Nat.add_comm]

/-- Witness for C5: with a mapper that collides on attempt 0 and raises an
unexpected exception on attempt 1, the loop fails with the generic
wrapped message after two calls. -/
theorem c5_loop_exception_handling_witness :
    call_attribute_mapper
      (fun i => if i = 0 then .ok { localpart := some "alice" }
        else .otherError "secret detail")
      (Store.isTaken { accounts := ["@alice:test"], links := [] }) "test" =
      (.mappingFailed genericMapperErrorMsg, 2) :=
  (c5_loop_exception_handling _ _ _ 1 (by decide)
    (fun j hj => by
      interval_cases j
      exact ⟨{ localpart := some "alice" }, "alice", rfl, rfl, by decide, by decide⟩)).2.2
    "secret detail" rfl

/-- C4: `_register_mapped_user` fails with a mapping-failed condition —
without calling account creation and without writing any link (the store
is unchanged and the trace is empty) — whenever `attributes.localpart` is
absent/empty or contains a character forbidden in a local identifier;
when validation passes and account creation succeeds, it writes the
external-identity link `(providerId, remoteUserId) -> localUserId` after
creation (trace order: `registerCall` then `recordLink`) and returns that
user id. -/
theorem c4_register_validates_then_links (server_name : String)
    (containsInvalid : String → Bool) (a : UserAttributes)
    (auth_provider_id remote_user_id : String) (st : Store) :
    (optStrFalsy a.localpart = true →
      register_mapped_user server_name containsInvalid a auth_provider_id
          remote_user_id st =
        (.mappingFailed ("localpart is invalid: " ++ optStrRepr a.localpart),
          st, [])) ∧
    (∀ lp, a.localpart = some lp → containsInvalid lp = true →
      register_mapped_user server_name containsInvalid a auth_provider_id
          remote_user_id st =
        (.mappingFailed ("localpart is invalid: " ++ lp), st, [])) ∧
    (∀ lp, a.localpart = some lp → lp ≠ "" → containsInvalid lp = false →
      st.isTaken (userIdToString lp server_name) = false →
      register_mapped_user server_name containsInvalid a auth_provider_id
          remote_user_id st =
        (.ok (userIdToString lp server_name),
          { accounts := st.accounts ++ [userIdToString lp server_name],
            links := st.links ++
              [((auth_provider_id, remote_user_id),
                userIdToString lp server_name)] },
          [.registerCall lp,
            .recordLink auth_provider_id remote_user_id
              (userIdToString lp server_name)])) := by
  refine ⟨fun h => ?_, fun lp hlp hci => ?_, fun lp hlp hne hci hfree => ?_⟩
  · simp [register_mapped_user, h]
  · simp [register_mapped_user, hlp, hci, optStrRepr]
  · simp [register_mapped_user, hlp, hne, hci, optStrFalsy,
      Store.registerUser, hfree, Store.recordLink]

/-- Witness for C4: an invalid localpart (`b b` contains a space) fails
without touching the store, and the valid free localpart `bob` is created
and linked. -/
theorem c4_register_validates_then_links_witness :
    (register_mapped_user "test" (fun lp => lp.toList.any (· = ' '))
        { localpart := some "b b" } "oidc" "rem" { accounts := [], links := [] } =
      (.mappingFailed "localpart is invalid: b b",
        { accounts := [], links := [] }, [])) ∧
    (register_mapped_user "test" (fun lp => lp.toList.any (· = ' '))
        { localpart := some "bob" } "oidc" "rem" { accounts := [], links := [] } =
      (.ok "@bob:test",
        { accounts := ["@bob:test"], links := [(("oidc", "rem"), "@bob:test")] },
        [.registerCall "bob", .recordLink "oidc" "rem" "@bob:test"])) :=
  ⟨(c4_register_validates_then_links "test" _ _ "oidc" "rem" _).2.1 "b b" rfl
      (by decide),
    (c4_register_validates_then_links "test" _ _ "oidc" "rem" _).2.2 "bob" rfl
      (by decide) (by decide) (by decide)⟩

/-- C6: `handle_redirect_request` with zero registered providers fails
with a "not configured" `SynapseError` of HTTP status 400; with exactly
one provider it returns the result of that provider's
`handle_redirect_request` (`beginAuth`) on the given redirect target;
with more than one it returns a redirect URI to the provider-picker
surface carrying the client redirect target as the `redirectUrl` query
parameter. -/
theorem c6_redirect_request_dispatch (providers : List SsoIdentityProvider)
    (client_redirect_url : String) :
    (providers = [] →
      handle_redirect_request providers client_redirect_url =
        .error 400 "Homeserver not configured for SSO." "M_UNRECOGNIZED") ∧
    (∀ ap, providers = [ap] →
      handle_redirect_request providers client_redirect_url =
        .uri (ap.beginAuth client_redirect_url)) ∧
    (2 ≤ providers.length →
      handle_redirect_request providers client_redirect_url =
        .uri ("/_synapse/client/pick_idp?" ++
          urlencode [("redirectUrl", client_redirect_url)])) := by
  refine ⟨fun h => ?_, fun ap h => ?_, fun h => ?_⟩
  · rw [h]; rfl
  · rw [h]; rfl
  · match providers, h with
    | p :: q :: rest, _ => rfl

/-- Witness for C6: the three dispatch cases at concrete provider lists. -/
theorem c6_redirect_request_dispatch_witness :
    (handle_redirect_request [] "https://x/y" =
      .error 400 "Homeserver not configured for SSO." "M_UNRECOGNIZED") ∧
    (handle_redirect_request [⟨"a", "A", fun u => "authA/" ++ u⟩] "https://x/y" =
      .uri "authA/https://x/y") ∧
    (handle_redirect_request
        [⟨"a", "A", fun u => "authA/" ++ u⟩, ⟨"b", "B", fun u => "authB/" ++ u⟩]
        "https://x/y" =
      .uri "/_synapse/client/pick_idp?redirectUrl=https%3A%2F%2Fx%2Fy") :=
  ⟨(c6_redirect_request_dispatch [] "https://x/y").1 rfl,
    (c6_redirect_request_dispatch _ "https://x/y").2.1 _ rfl,
    by
      have h := (c6_redirect_request_dispatch
        [⟨"a", "A", fun u => "authA/" ++ u⟩, ⟨"b", "B", fun u => "authB/" ++ u⟩]
        "https://x/y").2.2 (by decide)
      rw [h]; rfl⟩

/-- C10: if the external link table already maps
`(providerId, remoteUserId)` to a local user id, `complete_sso_login_request`
completes login with exactly that id; it invokes neither the
grandfathering callback, nor the mapper, nor registration (the trace is
just the final `completeLogin`), and it writes no new link: the whole
state — link table and session table — is unchanged, for every mapper and
every grandfathering callback. -/
theorem c10_link_hit_short_circuits (server_name : String)
    (containsInvalid : String → Bool)
    (auth_provider_id remote_user_id client_redirect_url : String)
    (mapper : Nat → MapperOutcome) (grandfather : Option String)
    (extra_login_attributes : Option JsonDict) (session_id : String)
    (now : Nat) (st : SsoState) (user_id : String)
    (hlink : st.store.lookupLink auth_provider_id remote_user_id = some user_id)
    (hne : user_id ≠ "") :
    complete_sso_login_request server_name containsInvalid auth_provider_id
        remote_user_id client_redirect_url mapper grandfather
        extra_login_attributes session_id now st =
      (.done user_id, st, [.completeLogin user_id]) := by
  simp [complete_sso_login_request, hlink, optStrFalsy, hne]

/-- Witness for C10: a pre-existing link `("oidc","abc") -> "@alice:example.org"`
completes login directly, leaving the state untouched, even though the
mapper would propose a fresh name and the grandfather callback would
answer. -/
theorem c10_link_hit_short_circuits_witness :
    complete_sso_login_request "example.org" (fun _ => false) "oidc" "abc"
        "https://client/" (fun _ => .ok { localpart := some "fresh" })
        (some "@gf:example.org") none "sid" 0
        { store := { accounts := ["@alice:example.org"],
                     links := [(("oidc", "abc"), "@alice:example.org")] },
          sessions := [] } =
      (.done "@alice:example.org",
        { store := { accounts := ["@alice:example.org"],
                     links := [(("oidc", "abc"), "@alice:example.org")] },
          sessions := [] },
        [.completeLogin "@alice:example.org"]) :=
  c10_link_hit_short_circuits "example.org" _ "oidc" "abc" "https://client/" _ _
    none "sid" 0 _ "@alice:example.org" (by decide) (by decide)

theorem call_attribute_mapper_none_first (mapper : Nat → MapperOutcome)
    (taken : String → Bool) (server_name : String) (a : UserAttributes)
    (hmap : mapper 0 = .ok a) (hlp : a.localpart = none) :
    call_attribute_mapper mapper taken server_name = (.attrs a, 1) := by
  have h : MAP_USERNAME_RETRIES = 999 + 1 := rfl
  unfold call_attribute_mapper
  rw [h]
  simp [call_attribute_mapper_from, hmap, hlp]

/-- Counterexample to C3 as stated: a mapper returning an *empty* (rather
than absent) localpart does not lead to a username-picker redirect.
With no existing link and no grandfathered user,
`complete_sso_login_request` instead fails with a mapping-failed
condition from `_register_mapped_user` (because the picker branch tests
`attributes.localpart is None`, which an empty string does not satisfy),
and no `UsernameMappingSession` is created. -/
theorem c3_empty_localpart_no_picker_counterexample :
    complete_sso_login_request "test" (fun _ => false) "oidc" "rem" "url"
        (fun _ => .ok { localpart := some "" }) none none "sid" 0
        { store := { accounts := [], links := [] }, sessions := [] } =
      (.mappingFailed "localpart is invalid: ",
        { store := { accounts := [], links := [] }, sessions := [] },
        [.grandfatherCall, .mapperCall 0]) := by
  rfl

/-- C3 (amended): for every mapper callback whose returned attributes have
an *absent* (`None`) localpart, `complete_sso_login_request` (with no
existing link and no grandfathered user) creates a
`UsernameMappingSession` and signals a redirect to the username picker
surface, terminating the current request without calling registration
(the trace is exactly the grandfather call and one mapper call). An
*empty-string* localpart instead fails with a mapping-failed condition
(see the counterexample). -/
theorem c3_absent_localpart_redirects_to_picker (server_name : String)
    (containsInvalid : String → Bool)
    (auth_provider_id remote_user_id client_redirect_url : String)
    (mapper : Nat → MapperOutcome) (grandfather : Option String)
    (extra_login_attributes : Option JsonDict) (session_id : String)
    (now : Nat) (st : SsoState) (a : UserAttributes)
    (hlink : st.store.lookupLink auth_provider_id remote_user_id = none)
    (hgf : optStrFalsy grandfather = true)
    (hmap : mapper 0 = .ok a)
    (hlp : a.localpart = none) :
    complete_sso_login_request server_name containsInvalid auth_provider_id
        remote_user_id client_redirect_url mapper grandfather
        extra_login_attributes session_id now st =
      (.redirectToPicker session_id,
        { store := st.store,
          sessions := st.sessions ++
            [(session_id,
              mkMappingSession auth_provider_id remote_user_id a
                client_redirect_url extra_login_attributes now)] },
        [.grandfatherCall, .mapperCall 0]) := by
  have hloop := call_attribute_mapper_none_first mapper
    st.store.isTaken server_name a hmap hlp
  cases grandfather with
  | none =>
    simp [complete_sso_login_request, hlink, hloop, hlp, optStrFalsy,
      redirect_to_username_picker, List.range_succ]
  | some g =>
    have hg : g = "" := by simpa [optStrFalsy] using hgf
    subst hg
    simp [complete_sso_login_request, hlink, hloop, hlp, optStrFalsy,
      redirect_to_username_picker, List.range_succ]

/-- Witness for C3 (amended): a concrete mapper answering `localpart=None`
creates the session and redirects to the picker. -/
theorem c3_absent_localpart_redirects_to_picker_witness :
    complete_sso_login_request "test" (fun _ => false) "oidc" "rem" "url"
        (fun _ =>
          .ok { localpart := none, display_name := some "Ada", emails := ["a@b"] })
        none none "sid" 7
        { store := { accounts := [], links := [] }, sessions := [] } =
      (.redirectToPicker "sid",
        { store := { accounts := [], links := [] },
          sessions := [("sid",
            { auth_provider_id := "oidc", remote_user_id := "rem",
              display_name := some "Ada", emails := ["a@b"],
              extra_login_attributes := none, client_redirect_url := "url",
              expiry_time_ms := 7 + MAPPING_SESSION_VALIDITY_PERIOD_MS })] },
        [.grandfatherCall, .mapperCall 0]) :=
  c3_absent_localpart_redirects_to_picker "test" _ "oidc" "rem" "url" _ none
    none "sid" 7 { store := { accounts := [], links := [] }, sessions := [] }
    { localpart := none, display_name := some "Ada", emails := ["a@b"] }
    rfl rfl rfl rfl


theorem lookup_filter_of_keep (k : String)
    (p : String × UsernameMappingSession → Bool) :
    ∀ (l : SessionTable) (v : UsernameMappingSession),
      l.lookup k = some v → p (k, v) = true → (l.filter p).lookup k = some v := by
  intro l
  induction l with
  | nil => intro v h _; simp [List.lookup] at h
  | cons e t ih =>
    intro v hl hp
    obtain ⟨ek, ev⟩ := e
    by_cases hk : k = ek
    · subst hk
      simp [List.lookup] at hl
      subst hl
      rw [List.filter_cons, if_pos (by simp [hp])]
      simp [List.lookup]
    · have hbeq : (k == ek) = false := beq_eq_false_iff_ne.mpr hk
      simp only [List.lookup, hbeq] at hl
      rw [List.filter_cons]
      by_cases hpe : p (ek, ev) = true
      · rw [if_pos (by simp [hpe])]
        simp only [List.lookup, hbeq]
        exact ih v hl hp
      · rw [if_neg (by simpa using hpe)]
        exact ih v hl hp

theorem lookup_none_of_not_mem_keys (k : String) :
    ∀ (l : SessionTable), k ∉ l.map Prod.fst → l.lookup k = none := by
  intro l
  induction l with
  | nil => intro _; rfl
  | cons e t ih =>
    intro h
    obtain ⟨ek, ev⟩ := e
    rw [List.map_cons] at h
    have hne : k ≠ ek := fun hk => h (by simp [hk])
    have h2 : k ∉ t.map Prod.fst := fun hm => h (List.mem_cons_of_mem _ hm)
    have hbeq : (k == ek) = false := beq_eq_false_iff_ne.mpr hne
    simp [List.lookup, hbeq, ih h2]

theorem lookup_filter_of_drop (k : String)
    (p : String × UsernameMappingSession → Bool) :
    ∀ (l : SessionTable) (v : UsernameMappingSession),
      (l.map Prod.fst).Nodup → l.lookup k = some v → p (k, v) = false →
      (l.filter p).lookup k = none := by
  intro l
  induction l with
  | nil => intro v _ h _; simp [List.lookup] at h
  | cons e t ih =>
    intro v hnd hl hp
    obtain ⟨ek, ev⟩ := e
    rw [List.map_cons] at hnd
    rw [List.nodup_cons] at hnd
    by_cases hk : k = ek
    · subst hk
      simp [List.lookup] at hl
      subst hl
      rw [List.filter_cons, if_neg (by simp [hp])]
      apply lookup_none_of_not_mem_keys
      intro hmem
      exact hnd.1 (List.map_subset Prod.fst (List.filter_subset' t) hmem)
    · have hbeq : (k == ek) = false := beq_eq_false_iff_ne.mpr hk
      simp only [List.lookup, hbeq] at hl
      rw [List.filter_cons]
      by_cases hpe : p (ek, ev) = true
      · rw [if_pos (by simp [hpe])]
        simp only [List.lookup, hbeq]
        exact ih v hnd.2 hl hp
      · rw [if_neg (by simpa using hpe)]
        exact ih v hnd.2 hl hp

theorem lookup_filter_out_key (k : String) :
    ∀ (l : SessionTable),
      (l.filter (fun p => !(p.1 == k))).lookup k = none := by
  intro l
  induction l with
  | nil => rfl
  | cons e t ih =>
    obtain ⟨ek, ev⟩ := e
    rw [List.filter_cons]
    by_cases hk : ek = k
    · subst hk
      rw [if_neg (by simp)]
      exact ih
    · have hbeq : (ek == k) = false := beq_eq_false_iff_ne.mpr hk
      have hbeq' : (k == ek) = false := beq_eq_false_iff_ne.mpr (Ne.symm hk)
      rw [if_pos (by simp [hbeq])]
      simp only [List.lookup, hbeq']
      exact ih

theorem expire_expire (t1 t2 : Nat) (h : t1 ≤ t2) :
    ∀ (l : SessionTable),
      expire_old_sessions t2 (expire_old_sessions t1 l) =
        expire_old_sessions t2 l := by
  intro l
  unfold expire_old_sessions
  rw [List.filter_filter]
  apply List.filter_congr
  intro e _
  rcases Nat.lt_or_ge t2 e.2.expiry_time_ms with hgt | hle
  · have h1 : ¬ (e.2.expiry_time_ms ≤ t1) := by omega
    have h2 : ¬ (e.2.expiry_time_ms ≤ t2) := by omega
    simp [h1, h2]
  · simp [hle]

/-- C7: a picker session created at time `T` has expiry time
`T + 15` minutes; `check_username_availability` and
`handle_submit_username_request` with its session id find the session at
every time strictly before `T + 15` minutes and fail with
"unknown session" at every time at or after `T + 15` minutes, because the
expiry sweep removes exactly the sessions whose `expiry_time_ms <= now`
(last conjunct). -/
theorem c7_session_expiry_boundary (server_name : String)
    (containsInvalid : String → Bool) (localpart session_id : String)
    (auth_provider_id remote_user_id client_redirect_url : String)
    (a : UserAttributes) (extra : Option JsonDict) (T now : Nat)
    (st : SsoState)
    (hnd : (st.sessions.map Prod.fst).Nodup)
    (hlk : st.sessions.lookup session_id =
      some (mkMappingSession auth_provider_id remote_user_id a
        client_redirect_url extra T)) :
    ((mkMappingSession auth_provider_id remote_user_id a client_redirect_url
        extra T).expiry_time_ms = T + 15 * 60 * 1000) ∧
    (now < T + MAPPING_SESSION_VALIDITY_PERIOD_MS →
      (check_username_availability server_name containsInvalid localpart
          session_id now st).1 ≠ .unknownSession ∧
      (handle_submit_username_request server_name containsInvalid localpart
          session_id now st).1 ≠ .unknownSession) ∧
    (T + MAPPING_SESSION_VALIDITY_PERIOD_MS ≤ now →
      (check_username_availability server_name containsInvalid localpart
          session_id now st).1 = .unknownSession ∧
      (handle_submit_username_request server_name containsInvalid localpart
          session_id now st).1 = .unknownSession) ∧
    (∀ e, e ∈ expire_old_sessions now st.sessions ↔
      e ∈ st.sessions ∧ ¬(e.2.expiry_time_ms ≤ now)) := by
  refine ⟨rfl, fun hnow => ?_, fun hnow => ?_, fun e => ?_⟩
  · have hkeep := lookup_filter_of_keep session_id
      (fun p => !(p.2.expiry_time_ms ≤ now)) st.sessions
      (mkMappingSession auth_provider_id remote_user_id a client_redirect_url
        extra T) hlk
      (by simp [mkMappingSession]; omega)
    have hkeep' : (expire_old_sessions now st.sessions).lookup session_id =
        some (mkMappingSession auth_provider_id remote_user_id a
          client_redirect_url extra T) := hkeep
    constructor
    · simp only [check_username_availability, hkeep']
      split <;> simp
    · simp only [handle_submit_username_request, hkeep']
      split <;> simp
  · have hdrop := lookup_filter_of_drop session_id
      (fun p => !(p.2.expiry_time_ms ≤ now)) st.sessions
      (mkMappingSession auth_provider_id remote_user_id a client_redirect_url
        extra T) hnd hlk
      (by simp [mkMappingSession]; omega)
    have hdrop' : (expire_old_sessions now st.sessions).lookup session_id =
        none := hdrop
    constructor
    · simp only [check_username_availability, hdrop']
    · simp only [handle_submit_username_request, hdrop']
  · simp [expire_old_sessions, List.mem_filter]

/-- Witness for C7: a session created at `T = 0` is found at
`T + 15min - 1ms` and unknown at `T + 15min`. -/
theorem c7_session_expiry_boundary_witness :
    ((check_username_availability "test" (fun _ => false) "bob" "abc" 899999
        { store := { accounts := [], links := [] },
          sessions :=
            [("abc",
              mkMappingSession "oidc" "rem" { localpart := none } "url" none 0)] }).1 ≠
      .unknownSession) ∧
    ((check_username_availability "test" (fun _ => false) "bob" "abc" 900000
        { store := { accounts := [], links := [] },
          sessions :=
            [("abc",
              mkMappingSession "oidc" "rem" { localpart := none } "url" none 0)] }).1 =
      .unknownSession) :=
  ⟨((c7_session_expiry_boundary "test" (fun _ => false) "bob" "abc" "oidc" "rem"
        "url" { localpart := none } none 0 899999
        { store := { accounts := [], links := [] },
          sessions :=
            [("abc",
              mkMappingSession "oidc" "rem" { localpart := none } "url" none 0)] }
        (by decide) rfl).2.1 (by decide)).1,
    ((c7_session_expiry_boundary "test" (fun _ => false) "bob" "abc" "oidc" "rem"
        "url" { localpart := none } none 0 900000
        { store := { accounts := [], links := [] },
          sessions :=
            [("abc",
              mkMappingSession "oidc" "rem" { localpart := none } "url" none 0)] }
        (by decide) rfl).2.2.1 (by decide)).1⟩

theorem check_username_availability_state (server_name : String)
    (containsInvalid : String → Bool) (localpart session_id : String)
    (now : Nat) (st : SsoState) :
    (check_username_availability server_name containsInvalid localpart
        session_id now st).2 =
      { store := st.store, sessions := expire_old_sessions now st.sessions } := by
  simp only [check_username_availability]
  split
  · rfl
  · split <;> rfl

theorem handle_submit_congr (server_name : String)
    (containsInvalid : String → Bool) (localpart session_id : String)
    (now : Nat) (s1 s2 : SsoState)
    (hst : s1.store = s2.store)
    (hse : expire_old_sessions now s1.sessions =
      expire_old_sessions now s2.sessions) :
    handle_submit_username_request server_name containsInvalid localpart
        session_id now s1 =
      handle_submit_username_request server_name containsInvalid localpart
        session_id now s2 := by
  simp only [handle_submit_username_request, hst, hse]

theorem fold_checks_view (server_name : String)
    (containsInvalid : String → Bool) :
    ∀ (calls : List (String × String × Nat)) (st : SsoState) (nowS : Nat),
      (∀ c ∈ calls, c.2.2 ≤ nowS) →
      (calls.foldl (fun s c =>
          (check_username_availability server_name containsInvalid c.1 c.2.1
            c.2.2 s).2) st).store = st.store ∧
      expire_old_sessions nowS
          (calls.foldl (fun s c =>
            (check_username_availability server_name containsInvalid c.1 c.2.1
              c.2.2 s).2) st).sessions =
        expire_old_sessions nowS st.sessions := by
  intro calls
  induction calls with
  | nil => intro st nowS _; exact ⟨rfl, rfl⟩
  | cons c rest ih =>
    intro st nowS h
    rw [List.foldl_cons]
    have hc := check_username_availability_state server_name containsInvalid
      c.1 c.2.1 c.2.2 st
    obtain ⟨ih1, ih2⟩ := ih
      ((check_username_availability server_name containsInvalid c.1 c.2.1
        c.2.2 st).2) nowS (fun d hd => h d (List.mem_cons_of_mem _ hd))
    refine ⟨?_, ?_⟩
    · rw [ih1, hc]
    · rw [ih2, hc]
      exact expire_expire c.2.2 nowS (h c (List.mem_cons_self c rest))
        st.sessions

/-- C8: `check_username_availability`, called with a valid (unexpired)
session id and a valid localpart, returns exactly the (case-insensitive)
freeness of the derived local user id, and has no side effect beyond the
expiry sweep: the resulting state keeps the store untouched and the
sessions are exactly the swept sessions (second conjunct, with no
hypotheses at all); and a `handle_submit_username_request` performed at
any time not earlier than any number `N` of interleaved availability
checks gives exactly the same outcome as if the checks had never
happened (third conjunct). -/
theorem c8_check_availability_no_side_effect (server_name : String)
    (containsInvalid : String → Bool) (localpart session_id : String)
    (now : Nat) (st : SsoState) :
    (∀ sess,
      (expire_old_sessions now st.sessions).lookup session_id = some sess →
      containsInvalid localpart = false →
      check_username_availability server_name containsInvalid localpart
          session_id now st =
        (.ok (!(st.store.isTaken (userIdToString localpart server_name))),
          { store := st.store,
            sessions := expire_old_sessions now st.sessions })) ∧
    ((check_username_availability server_name containsInvalid localpart
        session_id now st).2.store = st.store ∧
      (check_username_availability server_name containsInvalid localpart
        session_id now st).2.sessions = expire_old_sessions now st.sessions) ∧
    (∀ (calls : List (String × String × Nat)) (nowS : Nat),
      (∀ c ∈ calls, c.2.2 ≤ nowS) →
      handle_submit_username_request server_name containsInvalid localpart
          session_id nowS
          (calls.foldl (fun s c =>
            (check_username_availability server_name containsInvalid c.1 c.2.1
              c.2.2 s).2) st) =
        handle_submit_username_request server_name containsInvalid localpart
          session_id nowS st) := by
  refine ⟨fun sess hlk hci => ?_, ?_, fun calls nowS h => ?_⟩
  · simp only [check_username_availability, hlk, hci]
    simp
  · rw [check_username_availability_state]
    exact ⟨rfl, rfl⟩
  · obtain ⟨h1, h2⟩ := fold_checks_view server_name containsInvalid calls st
      nowS h
    exact handle_submit_congr server_name containsInvalid localpart session_id
      nowS _ st h1 h2

/-- Witness for C8: on a concrete live session, the availability check
reports the free name `bob` with sweep-only effect, and a prior check
call does not change the outcome of a later submit. -/
theorem c8_check_availability_no_side_effect_witness :
    (check_username_availability "test" (fun _ => false) "bob" "abc" 10
        { store := { accounts := ["@alice:test"], links := [] },
          sessions :=
            [("abc",
              mkMappingSession "oidc" "rem" { localpart := none } "url" none 0)] } =
      (.ok true,
        { store := { accounts := ["@alice:test"], links := [] },
          sessions :=
            [("abc",
              mkMappingSession "oidc" "rem" { localpart := none } "url" none 0)] })) ∧
    (handle_submit_username_request "test" (fun _ => false) "bob" "abc" 10
        ([("carol", "abc", 5)].foldl (fun s c =>
          (check_username_availability "test" (fun _ => false) c.1 c.2.1 c.2.2
            s).2)
          { store := { accounts := ["@alice:test"], links := [] },
            sessions :=
              [("abc",
                mkMappingSession "oidc" "rem" { localpart := none } "url" none
                  0)] }) =
      handle_submit_username_request "test" (fun _ => false) "bob" "abc" 10
        { store := { accounts := ["@alice:test"], links := [] },
          sessions :=
            [("abc",
              mkMappingSession "oidc" "rem" { localpart := none } "url" none
                0)] }) :=
  ⟨(c8_check_availability_no_side_effect "test" (fun _ => false) "bob" "abc" 10
      { store := { accounts := ["@alice:test"], links := [] },
        sessions :=
          [("abc",
            mkMappingSession "oidc" "rem" { localpart := none } "url" none 0)] }).1
      (mkMappingSession "oidc" "rem" { localpart := none } "url" none 0) rfl rfl,
    (c8_check_availability_no_side_effect "test" (fun _ => false) "bob" "abc" 10
      { store := { accounts := ["@alice:test"], links := [] },
        sessions :=
          [("abc",
            mkMappingSession "oidc" "rem" { localpart := none } "url" none 0)] }).2.2
      [("carol", "abc", 5)] 10 (by decide)⟩

theorem registerUser_inUse_store (st : Store) (server_name lp : String)
    (s : Store) (h : st.registerUser server_name lp = (.inUse, s)) : s = st := by
  unfold Store.registerUser at h
  dsimp only at h
  split at h
  · simp at h
    exact h.symm
  · simp at h

theorem register_mapped_user_failed_inv (server_name : String)
    (containsInvalid : String → Bool) (a : UserAttributes)
    (auth_provider_id remote_user_id : String) (st : Store) (msg : String)
    (store' : Store) (ev : List Event)
    (h : register_mapped_user server_name containsInvalid a auth_provider_id
      remote_user_id st = (.mappingFailed msg, store', ev)) :
    store' = st ∧ ev = [] := by
  unfold register_mapped_user at h
  split at h
  · simp at h
    exact ⟨h.2.1.symm, h.2.2⟩
  · dsimp only at h
    split at h <;> simp at h

theorem register_mapped_user_inUse_inv (server_name : String)
    (containsInvalid : String → Bool) (a : UserAttributes)
    (auth_provider_id remote_user_id : String) (st : Store)
    (store' : Store) (ev : List Event)
    (h : register_mapped_user server_name containsInvalid a auth_provider_id
      remote_user_id st = (.userInUse, store', ev)) :
    store' = st := by
  unfold register_mapped_user at h
  split at h
  · simp at h
  · dsimp only at h
    split at h
    next heq =>
      simp at h
      rw [← h.1]
      exact registerUser_inUse_store st server_name _ _ heq
    next heq => simp at h

/-- C9: `handle_submit_username_request` deletes its picker session and
clears the correlation cookie only after registration succeeds. If
registration fails — localpart invalid (mapping-failed) or the identifier
claimed in the meantime, which surfaces as the distinguishable
`USER_IN_USE` condition rather than a generic error — the error
propagates, the cookie is not cleared, and the session remains in the
(swept) session table unchanged; on success the session is deleted and
the cookie cleared. -/
theorem c9_submit_deletes_session_only_on_success (server_name : String)
    (containsInvalid : String → Bool) (localpart session_id : String)
    (now : Nat) (st : SsoState) (sess : UsernameMappingSession)
    (hlk : (expire_old_sessions now st.sessions).lookup session_id =
      some sess) :
    (∀ msg store' ev,
      register_mapped_user server_name containsInvalid
          { localpart := some localpart, display_name := sess.display_name,
            emails := sess.emails }
          sess.auth_provider_id sess.remote_user_id st.store =
        (.mappingFailed msg, store', ev) →
      handle_submit_username_request server_name containsInvalid localpart
          session_id now st =
        (.mappingFailed msg,
          { store := st.store, sessions := expire_old_sessions now st.sessions },
          false) ∧
      (handle_submit_username_request server_name containsInvalid localpart
          session_id now st).2.1.sessions.lookup session_id = some sess) ∧
    (∀ store' ev,
      register_mapped_user server_name containsInvalid
          { localpart := some localpart, display_name := sess.display_name,
            emails := sess.emails }
          sess.auth_provider_id sess.remote_user_id st.store =
        (.userInUse, store', ev) →
      handle_submit_username_request server_name containsInvalid localpart
          session_id now st =
        (.userInUse,
          { store := st.store, sessions := expire_old_sessions now st.sessions },
          false) ∧
      (handle_submit_username_request server_name containsInvalid localpart
          session_id now st).2.1.sessions.lookup session_id = some sess) ∧
    (∀ user_id store' ev,
      register_mapped_user server_name containsInvalid
          { localpart := some localpart, display_name := sess.display_name,
            emails := sess.emails }
          sess.auth_provider_id sess.remote_user_id st.store =
        (.ok user_id, store', ev) →
      handle_submit_username_request server_name containsInvalid localpart
          session_id now st =
        (.ok user_id,
          { store := store',
            sessions := (expire_old_sessions now st.sessions).filter
              (fun p => !(p.1 == session_id)) },
          true) ∧
      (handle_submit_username_request server_name containsInvalid localpart
          session_id now st).2.1.sessions.lookup session_id = none) := by
  refine ⟨fun msg store' ev hreg => ?_, fun store' ev hreg => ?_,
    fun user_id store' ev hreg => ?_⟩
  · obtain ⟨hs, hev⟩ := register_mapped_user_failed_inv server_name
      containsInvalid _ _ _ _ msg store' ev hreg
    subst hs hev
    have heq : handle_submit_username_request server_name containsInvalid
        localpart session_id now st =
        (.mappingFailed msg,
          { store := st.store, sessions := expire_old_sessions now st.sessions },
          false) := by
      simp only [handle_submit_username_request, hlk, hreg]
    exact ⟨heq, by rw [heq]; exact hlk⟩
  · have hs := register_mapped_user_inUse_inv server_name containsInvalid _ _ _
      _ store' ev hreg
    subst hs
    have heq : handle_submit_username_request server_name containsInvalid
        localpart session_id now st =
        (.userInUse,
          { store := st.store, sessions := expire_old_sessions now st.sessions },
          false) := by
      simp only [handle_submit_username_request, hlk, hreg]
    exact ⟨heq, by rw [heq]; exact hlk⟩
  · have heq : handle_submit_username_request server_name containsInvalid
        localpart session_id now st =
        (.ok user_id,
          { store := store',
            sessions := (expire_old_sessions now st.sessions).filter
              (fun p => !(p.1 == session_id)) },
          true) := by
      simp only [handle_submit_username_request, hlk, hreg]
    exact ⟨heq, by rw [heq]; exact lookup_filter_out_key session_id _⟩

/-- Witness for C9: submitting the taken name `bob` surfaces
`USER_IN_USE` and keeps the session; submitting the free name `carol`
registers, deletes the session and clears the cookie. -/
theorem c9_submit_deletes_session_only_on_success_witness :
    (handle_submit_username_request "test" (fun _ => false) "bob" "abc" 10
        { store := { accounts := ["@bob:test"], links := [] },
          sessions :=
            [("abc",
              mkMappingSession "oidc" "rem" { localpart := none } "url" none 0)] } =
      (.userInUse,
        { store := { accounts := ["@bob:test"], links := [] },
          sessions :=
            [("abc",
              mkMappingSession "oidc" "rem" { localpart := none } "url" none 0)] },
        false)) ∧
    (handle_submit_username_request "test" (fun _ => false) "carol" "abc" 10
        { store := { accounts := ["@bob:test"], links := [] },
          sessions :=
            [("abc",
              mkMappingSession "oidc" "rem" { localpart := none } "url" none 0)] } =
      (.ok "@carol:test",
        { store := { accounts := ["@bob:test", "@carol:test"],
                     links := [(("oidc", "rem"), "@carol:test")] },
          sessions := [] },
        true)) := by
  constructor
  · have h := ((c9_submit_deletes_session_only_on_success "test"
      (fun _ => false) "bob" "abc" 10
      { store := { accounts := ["@bob:test"], links := [] },
        sessions :=
          [("abc",
            mkMappingSession "oidc" "rem" { localpart := none } "url" none 0)] }
      (mkMappingSession "oidc" "rem" { localpart := none } "url" none 0)
      rfl).2.1 { accounts := ["@bob:test"], links := [] }
      [Event.registerCall "bob"] rfl).1
    exact h
  · have h := ((c9_submit_deletes_session_only_on_success "test"
      (fun _ => false) "carol" "abc" 10
      { store := { accounts := ["@bob:test"], links := [] },
        sessions :=
          [("abc",
            mkMappingSession "oidc" "rem" { localpart := none } "url" none 0)] }
      (mkMappingSession "oidc" "rem" { localpart := none } "url" none 0)
      rfl).2.2 "@carol:test"
      { accounts := ["@bob:test", "@carol:test"],
        links := [(("oidc", "rem"), "@carol:test")] }
      [Event.registerCall "carol", Event.recordLink "oidc" "rem" "@carol:test"]
      rfl).1
    rw [h]
    rfl
